import Mathlib

/-!
Shallow embedding of the zdcurtain load-removal core (src/src/load_removal.py,
src/src/load_tracking.py, src/src/frame_analysis.py, src/src/utils.py and the
tick-driving parts of src/src/ui/zdcurtain_ui.py).

Python floats are modelled as rationals, perf_counter_ns timestamps as
integers (nanoseconds), and the mutable "_zdcurtain_ref" god object as an
explicit state record threaded through pure state-transformer functions.
-/

namespace ZDCurtain

/-- Load categories; the source uses the closed set of string tags
"none", "black", "elevator", "tram", "teleportal", "egg", "spinner". -/
inductive Cat where
  | none
  | black
  | elevator
  | tram
  | teleportal
  | egg
  | spinner
  deriving DecidableEq, Repr

/-- Ledger records of LoadRemovalSession (load_tracking.py):
LoadRemovalRecordEntry, LostLoadEntry and DiscardedLoadEntry.  Each carries
the fields its Python constructor stores; creation times are LocalTime
values, modelled as integers. -/
inductive LoadRecord where
  | removed (loadType : Cat) (loadTimeRemoved : ℚ) (loadRemovedAt : Int)
  | lost (loadType : Cat) (loadLostAt : Int)
  | discarded (loadType : Cat) (loadDiscardedAt : Int) (discardType : String)
  deriving DecidableEq, Repr

/-- The "loadTimeRemoved" field of each record kind's to_dict: the removed
record stores its credited duration, lost and discarded records report 0. -/
def loadTimeRemovedOf : LoadRecord → ℚ
  | .removed _ d _ => d
  | .lost _ _ => 0
  | .discarded _ _ _ => 0

def isRemovedRecord : LoadRecord → Bool
  | .removed _ _ _ => true
  | _ => false

def isLostRecord : LoadRecord → Bool
  | .lost _ _ => true
  | _ => false

def countRemoved (l : List LoadRecord) : Nat := (l.filter isRemovedRecord).length

def countLost (l : List LoadRecord) : Nat := (l.filter isLostRecord).length

/-- The settings_dict keys read by the load-removal logic
(user_profile.py UserProfileDict plus the keys filled in by settings_ui). -/
structure Settings where
  black_threshold : ℚ
  black_entropy_threshold : ℚ
  load_confidence_threshold_ms : Int
  similarity_threshold_elevator : ℚ
  similarity_threshold_tram : ℚ
  similarity_threshold_teleportal : ℚ
  similarity_threshold_egg : ℚ
  similarity_threshold_end_screen : ℚ
  load_cooldown_elevator_ms : Int
  load_cooldown_tram_ms : Int
  load_cooldown_teleportal_ms : Int
  load_cooldown_egg_ms : Int
  load_cooldown_spinner_ms : Int
  captured_window_title : String
  deriving DecidableEq, Repr

/-- Lookup of settings_dict["load_cooldown_{type}_ms"]; the source only
performs this lookup for the five non-"none", non-"black" categories. -/
def load_cooldown_setting_ms (st : Settings) : Cat → Int
  | .elevator => st.load_cooldown_elevator_ms
  | .tram => st.load_cooldown_tram_ms
  | .teleportal => st.load_cooldown_teleportal_ms
  | .egg => st.load_cooldown_egg_ms
  | .spinner => st.load_cooldown_spinner_ms
  | _ => 0

/-- The mutable attributes of the ZDCurtain object that the detection and
timing state machine reads and writes. -/
structure ZDState where
  is_tracking : Bool
  active_load_type : Cat
  potential_load_type : Cat
  in_black_screen : Bool
  in_black_slice : Bool
  in_game_over_screen : Bool
  full_black_level : ℚ
  slice_black_level : ℚ
  full_shannon_entropy : ℚ
  slice_shannon_entropy : ℚ
  full_shannon_entropy_min : ℚ
  slice_shannon_entropy_min : ℚ
  full_black_detected_at_timestamp : Int
  full_black_over_detected_at_timestamp : Int
  slice_black_detected_at_timestamp : Int
  slice_black_over_detected_at_timestamp : Int
  potential_load_detected_at_timestamp : Int
  confirmed_load_detected_at_timestamp : Int
  load_confidence_delta : Int
  load_cooldown_type : Cat
  load_cooldown_timestamp : Int
  load_cooldown_is_active : Bool
  is_load_being_removed : Bool
  should_block_load_detection : Bool
  captured_window_title_before_load : String
  similarity_to_elevator : ℚ
  similarity_to_tram : ℚ
  similarity_to_teleportal : ℚ
  similarity_to_egg : ℚ
  similarity_to_end_screen : ℚ
  similarity_to_loading_widget : ℚ
  similarity_to_game_over_screen : ℚ
  similarity_to_elevator_max : ℚ
  similarity_to_tram_max : ℚ
  similarity_to_teleportal_max : ℚ
  similarity_to_egg_max : ℚ
  similarity_to_end_screen_max : ℚ
  similarity_to_loading_widget_max : ℚ
  similarity_to_game_over_screen_max : ℚ
  single_load_time_removed_ms : ℚ
  load_time_removed_ms : ℚ
  load_removal_session : Option (List LoadRecord)

/-! Constants from utils.py and load_removal.py. -/

def ONE_SECOND : ℚ := 1000

def ONE_DREAD_FRAME_MS : ℚ := 1 / 60 * ONE_SECOND

def DREAD_MAX_DELTA_MS : ℚ := ONE_DREAD_FRAME_MS * 6

def GAMEOVER_FEATURE_SIMILARITY_THRESHOLD : ℚ := 50

def LOADING_WIDGET_SIMILARITY_THRESHOLD : ℚ := 10

/-- ms_to_ns (utils.py): ms * 1000000.  Its Python argument is an int for
every settings-supplied duration, so those uses are integer arithmetic. -/
def ms_to_ns (ms : Int) : Int := ms * 1000000

/-- ms_to_ns applied to the one float argument in the source,
DREAD_MAX_DELTA_MS. -/
def ms_to_ns_rat (ms : ℚ) : ℚ := ms * 1000000

/-- ns_to_ms (utils.py): ns / 1000000, Python true division, so the result
is a float even on int input. -/
def ns_to_ms (ns : ℚ) : ℚ := ns / 1000000

/-- end_tracking_load (load_removal.py lines 35-51); the icon and Qt-signal
emissions are UI-external and carry no detection state. -/
def end_tracking_load (due_to_error : Bool) (s : ZDState) : ZDState :=
  let s1 := { s with
    potential_load_type := Cat.none
    active_load_type := Cat.none
    load_confidence_delta := 0
    potential_load_detected_at_timestamp := 0
    confirmed_load_detected_at_timestamp := 0
    is_load_being_removed := false }
  if due_to_error then
    { s1 with should_block_load_detection := false, captured_window_title_before_load := "" }
  else s1

/-- check_load_cooldown (load_removal.py lines 483-492). -/
def check_load_cooldown (now : Int) (st : Settings) (s : ZDState) : ZDState :=
  if s.load_cooldown_type ≠ Cat.none ∧
      now > s.load_cooldown_timestamp +
        ms_to_ns (load_cooldown_setting_ms st s.load_cooldown_type) then
    { s with load_cooldown_timestamp := 0, load_cooldown_type := Cat.none,
             load_cooldown_is_active := false }
  else s

/-- check_black_screen_markers (load_removal.py lines 260-293): edge-detect
entry and exit of full-frame black and slice black, stamping timestamps on
edges only.  The source stamps each edge with its own perf_counter_ns call;
all stamps within one tick are modelled with the single tick time. -/
def check_black_screen_markers (now : Int) (st : Settings) (s : ZDState) : ZDState :=
  let s1 :=
    if s.full_black_level < st.black_threshold ∧
        s.full_shannon_entropy < st.black_entropy_threshold ∧ ¬ s.in_black_screen then
      { s with in_black_screen := true, full_black_detected_at_timestamp := now }
    else s
  let s2 :=
    if (s1.full_black_level ≥ st.black_threshold ∨
        s1.full_shannon_entropy ≥ st.black_entropy_threshold) ∧ s1.in_black_screen then
      { s1 with full_black_over_detected_at_timestamp := now, in_black_screen := false }
    else s1
  let s3 :=
    if s2.slice_black_level < st.black_threshold ∧
        s2.slice_shannon_entropy < st.black_entropy_threshold ∧ ¬ s2.in_black_slice then
      { s2 with slice_black_detected_at_timestamp := now, in_black_slice := true }
    else s2
  if (s3.slice_black_level ≥ st.black_threshold ∨
      s3.slice_shannon_entropy ≥ st.black_entropy_threshold) ∧ s3.in_black_slice then
    { s3 with slice_black_over_detected_at_timestamp := now, in_black_slice := false }
  else s3

/-- check_load_blocking_logic (load_removal.py lines 296-310). -/
def check_load_blocking_logic (s : ZDState) : ZDState :=
  if s.similarity_to_game_over_screen ≥ GAMEOVER_FEATURE_SIMILARITY_THRESHOLD ∧
      ¬ s.in_game_over_screen then
    { s with in_game_over_screen := true, should_block_load_detection := true }
  else if s.similarity_to_game_over_screen < GAMEOVER_FEATURE_SIMILARITY_THRESHOLD ∧
      s.in_game_over_screen then
    { s with in_game_over_screen := false, should_block_load_detection := false }
  else s

/-- set_local_extremes (load_removal.py lines 313-329).  The source updates
similarity_to_end_screen_max twice in a row with the same max; the second,
idempotent assignment is folded into the first. -/
def set_local_extremes (s : ZDState) : ZDState :=
  { s with
    similarity_to_elevator_max := max s.similarity_to_elevator s.similarity_to_elevator_max
    similarity_to_tram_max := max s.similarity_to_tram s.similarity_to_tram_max
    similarity_to_teleportal_max := max s.similarity_to_teleportal s.similarity_to_teleportal_max
    similarity_to_egg_max := max s.similarity_to_egg s.similarity_to_egg_max
    similarity_to_end_screen_max := max s.similarity_to_end_screen s.similarity_to_end_screen_max
    similarity_to_game_over_screen_max :=
      max s.similarity_to_game_over_screen s.similarity_to_game_over_screen_max
    similarity_to_loading_widget_max :=
      max s.similarity_to_loading_widget s.similarity_to_loading_widget_max
    full_shannon_entropy_min := min s.full_shannon_entropy s.full_shannon_entropy_min
    slice_shannon_entropy_min := min s.slice_shannon_entropy s.slice_shannon_entropy_min }

/-- check_load_confidence (load_removal.py lines 447-480).  The Python
function takes a keyword argument use_slice_black defaulting to True; every
call site in check_for_active_loads leaves it at the default, so the
argument is passed explicitly here and instantiated with true at those call
sites.  Returns the Python boolean return value paired with the updated
state. -/
def check_load_confidence (now : Int) (st : Settings) (load_type : Cat)
    (similarity threshold : ℚ) (use_slice_black : Bool) (s : ZDState) :
    Bool × ZDState :=
  if similarity > threshold ∧ s.active_load_type = Cat.none then
    let s1 :=
      if s.potential_load_detected_at_timestamp = 0 then
        { s with potential_load_detected_at_timestamp := now, potential_load_type := load_type }
      else s
    if now - s1.potential_load_detected_at_timestamp >
        ms_to_ns st.load_confidence_threshold_ms ∨ load_type = Cat.spinner then
      let black_screen_detection_timestamp :=
        if use_slice_black then s1.slice_black_detected_at_timestamp
        else s1.full_black_detected_at_timestamp
      (true, { s1 with
        confirmed_load_detected_at_timestamp := now
        load_confidence_delta := now - black_screen_detection_timestamp })
    else (false, s1)
  else if similarity ≤ threshold ∧ s.active_load_type = Cat.none ∧
      s.potential_load_type = load_type then
    (false, { s with potential_load_type := Cat.none })
  else (false, s)

/-- check_for_active_loads (load_removal.py lines 332-444).  The Python
black-load guard reads active_load_type in "none", a substring test that,
on the closed set of category tags, holds exactly for the tag "none".  All
icon creation, Qt-signal emission and widget enabling is UI-external.
Each per-category block is the source's pair of lines "if
check_load_confidence(...): active_load_type = category", factored into
confidence_step. -/
def confidence_step (now : Int) (st : Settings) (load_type : Cat)
    (similarity threshold : ℚ) (s : ZDState) : ZDState :=
  let r := check_load_confidence now st load_type similarity threshold true s
  if r.1 then { r.2 with active_load_type := load_type } else r.2

/-- The black-load confirmation condition (load_removal.py lines 333-339):
in full black, no active load, no cooldown, not blocked, and longer than
DREAD_MAX_DELTA_MS since full-black entry.  The source does not consult
potential_load_type here. -/
def black_confirm_cond (now : Int) (s : ZDState) : Prop :=
  s.in_black_screen ∧ s.active_load_type = Cat.none ∧
  ¬ s.load_cooldown_is_active ∧ ¬ s.should_block_load_detection ∧
  ((now - s.full_black_detected_at_timestamp : Int) : ℚ) > ms_to_ns_rat DREAD_MAX_DELTA_MS

instance (now : Int) (s : ZDState) : Decidable (black_confirm_cond now s) := by
  unfold black_confirm_cond
  infer_instance

def check_for_active_loads (now : Int) (st : Settings) (s : ZDState) : ZDState :=
  let s1 :=
    if black_confirm_cond now s then
      { s with confirmed_load_detected_at_timestamp := now, active_load_type := Cat.black }
    else s
  if (s1.active_load_type = Cat.none ∨ s1.active_load_type = Cat.black) ∧
      ¬ s1.load_cooldown_is_active ∧ ¬ s1.should_block_load_detection ∧
      ¬ s1.in_game_over_screen then
    let s2 := confidence_step now st Cat.elevator
      s1.similarity_to_elevator st.similarity_threshold_elevator s1
    let s3 := confidence_step now st Cat.tram
      s2.similarity_to_tram st.similarity_threshold_tram s2
    let s4 := confidence_step now st Cat.teleportal
      s3.similarity_to_teleportal st.similarity_threshold_teleportal s3
    let s5 := confidence_step now st Cat.egg
      s4.similarity_to_egg st.similarity_threshold_egg s4
    let s6 := confidence_step now st Cat.spinner
      s5.similarity_to_loading_widget LOADING_WIDGET_SIMILARITY_THRESHOLD s5
    if ¬ s6.is_load_being_removed ∧ s6.active_load_type ≠ Cat.none then
      { s6 with is_load_being_removed := true,
                captured_window_title_before_load := st.captured_window_title }
    else s6
  else s1

/-- The black-exit timestamp check_if_load_ending selects: the slice-black
exit for a spinner load, the full-black exit for every other category
(load_removal.py lines 499-503). -/
def blackOverTs (s : ZDState) : Int :=
  if s.active_load_type = Cat.spinner then s.slice_black_over_detected_at_timestamp
  else s.full_black_over_detected_at_timestamp

/-- The credited duration computed at load end (load_removal.py lines
520-526): ns_to_ms of load_confidence_delta plus the span from confirmation
to black exit. -/
def credited_duration (s : ZDState) : ℚ :=
  ns_to_ms ((s.load_confidence_delta +
    (blackOverTs s - s.confirmed_load_detected_at_timestamp) : Int) : ℚ)

/-- check_if_load_ending (load_removal.py lines 495-541).  recordTime is
the LocalTime() stamp create_load_removal_record gives the new entry. -/
def check_if_load_ending (now : Int) (st : Settings) (recordTime : Int) (s : ZDState) : ZDState :=
  match s.load_removal_session with
  | Option.none => s
  | Option.some loads =>
    if blackOverTs s > s.confirmed_load_detected_at_timestamp ∧ s.is_load_being_removed ∧
        ¬ s.should_block_load_detection then
      let s1 :=
        if s.active_load_type ≠ Cat.none ∧ s.active_load_type ≠ Cat.black then
          if s.load_cooldown_type = Cat.none ∧ load_cooldown_setting_ms st s.active_load_type > 0 then
            { s with load_cooldown_type := s.active_load_type,
                     load_cooldown_timestamp := now,
                     load_cooldown_is_active := true }
          else s
        else s
      if now - blackOverTs s > s1.load_confidence_delta then
        end_tracking_load true
          { s1 with
            single_load_time_removed_ms := credited_duration s1
            load_time_removed_ms := s1.load_time_removed_ms + credited_duration s1
            load_removal_session := Option.some (loads ++
              [LoadRecord.removed s1.active_load_type (credited_duration s1) recordTime]) }
      else s1
    else s

/-- mark_load_as_lost (load_removal.py lines 211-228); lostAt is the
LocalTime() stamp the new LostLoadEntry receives. -/
def mark_load_as_lost (lostAt : Int) (s : ZDState) : ZDState :=
  match s.load_removal_session with
  | Option.none => s
  | Option.some loads =>
    if s.is_load_being_removed then
      end_tracking_load true
        { s with load_removal_session :=
            Option.some (loads ++ [LoadRecord.lost s.active_load_type lostAt]) }
    else s

/-- mark_load_as_discarded (load_removal.py lines 231-244). -/
def mark_load_as_discarded (discardedAt : Int) (discard_type : String) (s : ZDState) : ZDState :=
  match s.load_removal_session with
  | Option.none => s
  | Option.some loads =>
    if s.is_load_being_removed then
      end_tracking_load false
        { s with load_removal_session :=
            Option.some (loads ++
              [LoadRecord.discarded s.active_load_type discardedAt discard_type]) }
    else s

/-- is_end_screen (load_removal.py lines 31-32). -/
def is_end_screen (s : ZDState) (similarity threshold : ℚ) : Bool :=
  decide (similarity > threshold) && decide (s.active_load_type = Cat.none)

/-- reset_similarity_variables (zdcurtain_ui.py lines 570-588), the reset
run on explicit user action (the reset-statistics button), when a tracking
session begins, and from reset_tracking_variables when tracking ends. -/
def reset_similarity_variables (s : ZDState) : ZDState :=
  { s with
    similarity_to_tram := 0
    similarity_to_tram_max := 0
    similarity_to_teleportal := 0
    similarity_to_teleportal_max := 0
    similarity_to_elevator := 0
    similarity_to_elevator_max := 0
    similarity_to_egg := 0
    similarity_to_egg_max := 0
    similarity_to_end_screen := 0
    similarity_to_end_screen_max := 0
    similarity_to_game_over_screen := 0
    similarity_to_game_over_screen_max := 0
    similarity_to_loading_widget := 0
    similarity_to_loading_widget_max := 0
    full_shannon_entropy := 100
    full_shannon_entropy_min := 100
    slice_shannon_entropy := 100
    slice_shannon_entropy_min := 100 }

/-- reset_tracking_variables (zdcurtain_ui.py lines 525-568): clears load
classification, frame classification, intra-load timestamps and frame
status, then calls reset_similarity_variables — zeroing every per-category
similarity maximum.  The attributes not carried by ZDState
(average_luminance, last_black_screen_time, is_frame_black) are never read
by the embedded detection logic. -/
def reset_tracking_variables (s : ZDState) : ZDState :=
  reset_similarity_variables
    { s with
      active_load_type := Cat.none
      potential_load_type := Cat.none
      load_cooldown_type := Cat.none
      single_load_time_removed_ms := 0
      load_time_removed_ms := 0
      load_cooldown_timestamp := 0
      full_black_level := 1
      full_shannon_entropy := 100
      slice_black_level := 1
      slice_shannon_entropy := 100
      similarity_to_egg := 0
      similarity_to_elevator := 0
      similarity_to_end_screen := 0
      similarity_to_game_over_screen := 0
      similarity_to_loading_widget := 0
      similarity_to_teleportal := 0
      similarity_to_tram := 0
      full_black_detected_at_timestamp := 0
      full_black_over_detected_at_timestamp := 0
      slice_black_detected_at_timestamp := 0
      slice_black_over_detected_at_timestamp := 0
      confirmed_load_detected_at_timestamp := 0
      potential_load_detected_at_timestamp := 0
      load_confidence_delta := 0
      captured_window_title_before_load := ""
      in_black_screen := false
      in_black_slice := false
      in_game_over_screen := false
      is_load_being_removed := false
      should_block_load_detection := false
      load_cooldown_is_active := false }

/-- Effect of the UI end_tracking entry point (zdcurtain_ui.py lines
639-677): an early return when not tracking; otherwise every path reaches
the private end-tracking step, which runs reset_tracking_variables and
clears is_tracking.  The confirmation dialogs and export prompt are
UI-external, and the trailing is_load_being_removed check is dead because
reset_tracking_variables has already cleared that flag. -/
def end_tracking (s : ZDState) : ZDState :=
  if s.is_tracking then { reset_tracking_variables s with is_tracking := false } else s

/-- perform_load_removal_logic (load_removal.py lines 16-28).  The returned
boolean records whether the end-screen short-circuit invoked end_tracking
this tick. -/
def perform_load_removal_logic (now : Int) (st : Settings) (recordTime : Int) (s : ZDState) :
    ZDState × Bool :=
  let stopped := is_end_screen s s.similarity_to_end_screen 98
  let s0 := if stopped then end_tracking s else s
  let s' :=
    if ¬ s0.is_tracking ∨ s0.load_removal_session = Option.none then s0
    else
      check_if_load_ending now st recordTime
        (check_for_active_loads now st
          (check_load_blocking_logic
            (check_black_screen_markers now st
              (check_load_cooldown now st s0))))
  (s', stopped)

/-- One tick's worth of computed similarity signals, as
perform_similarity_analysis stores them before calling set_local_extremes. -/
structure SimilaritySignals where
  elevator : ℚ
  tram : ℚ
  teleportal : ℚ
  egg : ℚ
  end_screen : ℚ
  loading_widget : ℚ
  game_over : ℚ

/-- The tail of perform_similarity_analysis: store this tick's similarity
values on the state, then update the running extremes. -/
def observe (sig : SimilaritySignals) (s : ZDState) : ZDState :=
  set_local_extremes
    { s with
      similarity_to_elevator := sig.elevator
      similarity_to_tram := sig.tram
      similarity_to_teleportal := sig.teleportal
      similarity_to_egg := sig.egg
      similarity_to_end_screen := sig.end_screen
      similarity_to_loading_widget := sig.loading_widget
      similarity_to_game_over_screen := sig.game_over }

def observeAll : List SimilaritySignals → ZDState → ZDState
  | [], s => s
  | sig :: rest, s => observeAll rest (observe sig s)

/-! Comparison-method, capture-view and export-format lookups (C8). -/

/-- The no-op comparator returned for unknown algorithm names
(frame_analysis.py, compare_dummy). -/
def compare_dummy {α β : Type} (_ : α) (_ : β) : ℚ := 0

/-- The five real comparison implementations of frame_analysis.py; their
pixel-level bodies are OpenCV calls outside the detection state machine, so
they are carried as parameters. -/
structure ComparisonImpls (α : Type) where
  compare_l2_norm : α → α → ℚ
  compare_histograms : α → α → ℚ
  compare_phash : α → α → ℚ
  compare_fd_orb_bruteforce : α → α → ℚ
  compare_fd_orb_flann : α → α → ℚ

/-- get_comparison_method_by_name (frame_analysis.py lines 241-258). -/
def get_comparison_method_by_name {α : Type} (impls : ComparisonImpls α)
    (name : String) : α → α → ℚ :=
  if name = "l2norm" then impls.compare_l2_norm
  else if name = "histogram" then impls.compare_histograms
  else if name = "phash" then impls.compare_phash
  else if name = "orb_bf" then impls.compare_fd_orb_bruteforce
  else if name = "orb_flann" then impls.compare_fd_orb_flann
  else compare_dummy

/-- The four capture views held by the ZDCurtain object, plus the
is_valid_image test applied to the selected view. -/
structure CaptureViews (α : Type) where
  capture_view_resized : α
  capture_view_resized_normalized : α
  capture_view_resized_cropped : α
  capture_view_raw : α
  is_valid_image : α → Bool

/-- get_capture_view_by_name (zdcurtain_ui.py lines 716-733): unknown view
names raise KeyError; a known view that is not a valid image raises
ValueError. -/
def get_capture_view_by_name {α : Type} (v : CaptureViews α) (name : String) :
    Except String α :=
  let picked : Except String α :=
    if name = "standard_resized" then Except.ok v.capture_view_resized
    else if name = "normalized_resized" then Except.ok v.capture_view_resized_normalized
    else if name = "cropped_resized" then Except.ok v.capture_view_resized_cropped
    else if name = "raw" then Except.ok v.capture_view_raw
    else Except.error "KeyError: not a valid capture view"
  match picked with
  | Except.error e => Except.error e
  | Except.ok img =>
    if v.is_valid_image img then Except.ok img
    else Except.error "ValueError: unable to obtain capture type"

inductive ExportFormat where
  | json
  | excel
  | csv
  deriving DecidableEq, Repr

/-- The format dispatch of LoadRemovalSession.export_loads
(load_tracking.py lines 18-30): unknown formats raise KeyError. -/
def export_loads_format (data_format : String) : Except String ExportFormat :=
  if data_format = "json" then Except.ok ExportFormat.json
  else if data_format = "excel" then Except.ok ExportFormat.excel
  else if data_format = "csv" then Except.ok ExportFormat.csv
  else Except.error "KeyError: not a valid export format"

/-! LoadRemovalSession.delete_load (C9). -/

/-- Python attribute access load.loadRemovedAt: only LoadRemovalRecordEntry
defines that attribute; on a lost or discarded entry the access raises
AttributeError, modelled as Option.none. -/
def loadRemovedAt_attr : LoadRecord → Option Int
  | .removed _ _ t => Option.some t
  | _ => Option.none

/-- The lazy generator scan inside delete_load: walk the ledger in order
until the first record whose loadRemovedAt equals the requested datetime,
raising AttributeError as soon as a record without that attribute is
evaluated. -/
def find_delete_index : List LoadRecord → Int → Except String (Option Nat)
  | [], _ => Except.ok Option.none
  | r :: rest, t =>
    match loadRemovedAt_attr r with
    | Option.none => Except.error "AttributeError"
    | Option.some u =>
      if u = t then Except.ok (Option.some 0)
      else
        match find_delete_index rest t with
        | Except.error e => Except.error e
        | Except.ok Option.none => Except.ok Option.none
        | Except.ok (Option.some i) => Except.ok (Option.some (i + 1))

/-- LoadRemovalSession.delete_load (load_tracking.py lines 88-96). -/
def delete_load (loads : List LoadRecord) (t : Int) : Except String (List LoadRecord) :=
  if loads.length > 0 then
    match find_delete_index loads t with
    | Except.error e => Except.error e
    | Except.ok Option.none => Except.ok loads
    | Except.ok (Option.some i) => Except.ok (loads.eraseIdx i)
  else Except.ok loads

/-! Helper lemmas shared by several claim theorems. -/

/-- With an active load in progress, check_load_confidence is a no-op that
reports no confirmation: both of its guarded branches require
active_load_type to be none. -/
theorem clc_of_active_ne_none (s : ZDState) (h : s.active_load_type ≠ Cat.none)
    (now : Int) (st : Settings) (load_type : Cat)
    (similarity threshold : ℚ) (usb : Bool) :
    check_load_confidence now st load_type similarity threshold usb s = (false, s) := by
  unfold check_load_confidence
  rw [if_neg (by simp [h]), if_neg (by simp [h])]

/-- check_load_confidence never writes the active_load_type field. -/
theorem clc_active (now : Int) (st : Settings) (load_type : Cat)
    (similarity threshold : ℚ) (usb : Bool) (s : ZDState) :
    (check_load_confidence now st load_type similarity threshold usb s).2.active_load_type =
      s.active_load_type := by
  unfold check_load_confidence
  dsimp only
  split_ifs <;> rfl

/-- With an active load in progress, a whole per-category block of
check_for_active_loads is the identity. -/
theorem confidence_step_of_active_ne_none (s : ZDState) (h : s.active_load_type ≠ Cat.none)
    (now : Int) (st : Settings) (load_type : Cat) (similarity threshold : ℚ) :
    confidence_step now st load_type similarity threshold s = s := by
  unfold confidence_step
  rw [clc_of_active_ne_none s h]
  simp

/-- A concrete baseline state used by witnesses and counterexamples:
tracking just began, nothing detected yet, empty session ledger. -/
def baseState : ZDState where
  is_tracking := true
  active_load_type := Cat.none
  potential_load_type := Cat.none
  in_black_screen := false
  in_black_slice := false
  in_game_over_screen := false
  full_black_level := 50
  slice_black_level := 50
  full_shannon_entropy := 80
  slice_shannon_entropy := 80
  full_shannon_entropy_min := 100
  slice_shannon_entropy_min := 100
  full_black_detected_at_timestamp := 0
  full_black_over_detected_at_timestamp := 0
  slice_black_detected_at_timestamp := 0
  slice_black_over_detected_at_timestamp := 0
  potential_load_detected_at_timestamp := 0
  confirmed_load_detected_at_timestamp := 0
  load_confidence_delta := 0
  load_cooldown_type := Cat.none
  load_cooldown_timestamp := 0
  load_cooldown_is_active := false
  is_load_being_removed := false
  should_block_load_detection := false
  captured_window_title_before_load := ""
  similarity_to_elevator := 0
  similarity_to_tram := 0
  similarity_to_teleportal := 0
  similarity_to_egg := 0
  similarity_to_end_screen := 0
  similarity_to_loading_widget := 0
  similarity_to_game_over_screen := 0
  similarity_to_elevator_max := 0
  similarity_to_tram_max := 0
  similarity_to_teleportal_max := 0
  similarity_to_egg_max := 0
  similarity_to_end_screen_max := 0
  similarity_to_loading_widget_max := 0
  similarity_to_game_over_screen_max := 0
  single_load_time_removed_ms := 0
  load_time_removed_ms := 0
  load_removal_session := Option.some []

/-- Concrete settings for witnesses and counterexamples: the default
similarity thresholds of user_profile.py and a 3 ms confidence window. -/
def testSettings : Settings where
  black_threshold := 1
  black_entropy_threshold := 25
  load_confidence_threshold_ms := 3
  similarity_threshold_elevator := 90
  similarity_threshold_tram := 87
  similarity_threshold_teleportal := 89
  similarity_threshold_egg := 90
  similarity_threshold_end_screen := 98
  load_cooldown_elevator_ms := 0
  load_cooldown_tram_ms := 0
  load_cooldown_teleportal_ms := 0
  load_cooldown_egg_ms := 3000
  load_cooldown_spinner_ms := 0
  captured_window_title := "game window"

/-- C5: at most one load is active at a time.  Whenever activeLoadType is
not none at the start of a tick, check_for_active_loads confirms nothing:
the active category, the confirmation timestamp and the potential category
all come out unchanged, so detection of a new category while one is active
is ignored in that tick. -/
theorem c5_at_most_one_active_load (now : Int) (st : Settings) (s : ZDState)
    (h : s.active_load_type ≠ Cat.none) :
    (check_for_active_loads now st s).active_load_type = s.active_load_type ∧
    (check_for_active_loads now st s).confirmed_load_detected_at_timestamp =
      s.confirmed_load_detected_at_timestamp ∧
    (check_for_active_loads now st s).potential_load_type = s.potential_load_type := by
  unfold check_for_active_loads
  dsimp only
  have hno : ¬ black_confirm_cond now s := fun hc => h hc.2.1
  rw [if_neg hno]
  simp only [confidence_step_of_active_ne_none s h]
  split_ifs <;> simp

/-- Witness for C5 at a concrete state with an active black load. -/
theorem c5_witness :
    (check_for_active_loads 5 testSettings
        { baseState with active_load_type := Cat.black }).active_load_type = Cat.black :=
  (c5_at_most_one_active_load 5 testSettings
    { baseState with active_load_type := Cat.black } (by decide)).1

/-- C10: the end-screen stop is gated by the hard-coded constant 98, not by
the configured end-screen threshold: on every tick, end_tracking is invoked
exactly when the end-screen similarity strictly exceeds 98 while
activeLoadType is none, and the verdict is identical under any two settings
dictionaries. -/
theorem c10_end_screen_stop_gate (now : Int) (st : Settings) (recordTime : Int) (s : ZDState) :
    ((perform_load_removal_logic now st recordTime s).2 = true ↔
      (s.similarity_to_end_screen > 98 ∧ s.active_load_type = Cat.none)) ∧
    (∀ st2 : Settings,
      (perform_load_removal_logic now st recordTime s).2 =
        (perform_load_removal_logic now st2 recordTime s).2) := by
  constructor
  · simp [perform_load_removal_logic, is_end_screen]
  · intro st2
    rfl

/-- A per-category block either confirms its own category or leaves the
active category as it was. -/
theorem confidence_step_active_cases (now : Int) (st : Settings) (load_type : Cat)
    (similarity threshold : ℚ) (s : ZDState) :
    (confidence_step now st load_type similarity threshold s).active_load_type = load_type ∨
    (confidence_step now st load_type similarity threshold s).active_load_type =
      s.active_load_type := by
  unfold confidence_step
  dsimp only
  split_ifs
  · left
    rfl
  · right
    exact clc_active now st load_type similarity threshold true s

/-- If a non-black per-category block leaves the active category at black,
it was black before the block ran. -/
theorem confidence_step_black {now : Int} {st : Settings} {load_type : Cat}
    {similarity threshold : ℚ} {s : ZDState}
    (h : (confidence_step now st load_type similarity threshold s).active_load_type = Cat.black)
    (hc : load_type ≠ Cat.black) :
    s.active_load_type = Cat.black := by
  rcases confidence_step_active_cases now st load_type similarity threshold s with h' | h'
  · exact absurd (h'.symm.trans h) hc
  · exact h'.symm.trans h

/-- When the black confirmation condition holds, check_for_active_loads
confirms the black load and stamps the confirmation time. -/
theorem cfal_blackcond_confirms (now : Int) (st : Settings) (s : ZDState)
    (hc : black_confirm_cond now s) :
    (check_for_active_loads now st s).active_load_type = Cat.black ∧
    (check_for_active_loads now st s).confirmed_load_detected_at_timestamp = now := by
  obtain ⟨h1, h2, h3, h4, h5⟩ := hc
  unfold check_for_active_loads
  dsimp only
  rw [if_pos (show black_confirm_cond now s from ⟨h1, h2, h3, h4, h5⟩)]
  by_cases hg : s.in_game_over_screen
  · rw [if_neg (by simp [hg])]
    exact ⟨rfl, rfl⟩
  · rw [if_pos (by simp [h3, h4, hg])]
    simp only [confidence_step_of_active_ne_none
      { s with confirmed_load_detected_at_timestamp := now, active_load_type := Cat.black }
      (by simp)]
    split_ifs <;> exact ⟨rfl, rfl⟩

/-- When the black confirmation condition fails, a black active category
after the tick can only be one that was already there. -/
theorem cfal_black_only_if_cond (now : Int) (st : Settings) (s : ZDState)
    (hc : ¬ black_confirm_cond now s)
    (hb : (check_for_active_loads now st s).active_load_type = Cat.black) :
    s.active_load_type = Cat.black := by
  unfold check_for_active_loads at hb
  dsimp only at hb
  rw [if_neg hc] at hb
  by_cases hg : (s.active_load_type = Cat.none ∨ s.active_load_type = Cat.black) ∧
      ¬ s.load_cooldown_is_active ∧ ¬ s.should_block_load_detection ∧
      ¬ s.in_game_over_screen
  · rw [if_pos hg] at hb
    split_ifs at hb
    all_goals
      replace hb := confidence_step_black hb (by decide)
      replace hb := confidence_step_black hb (by decide)
      replace hb := confidence_step_black hb (by decide)
      replace hb := confidence_step_black hb (by decide)
      exact confidence_step_black hb (by decide)
  · rw [if_neg hg] at hb
    exact hb

/-- C4 (amended): a black load is confirmed, with its confirmation
timestamp stamped, exactly when the detector is in full black, the active
category is none, no cooldown is active, detection is not blocked and the
time since full-black entry exceeds the fixed debounce DREAD_MAX_DELTA_MS,
which is 100 ms (six frames at 60 Hz); the potential category plays no
part in the decision. -/
theorem c4_black_load_confirmation (now : Int) (st : Settings) (s : ZDState)
    (h : s.active_load_type ≠ Cat.black) :
    (((check_for_active_loads now st s).active_load_type = Cat.black ∧
      (check_for_active_loads now st s).confirmed_load_detected_at_timestamp = now) ↔
        black_confirm_cond now s) ∧
    ms_to_ns_rat DREAD_MAX_DELTA_MS = 100000000 := by
  constructor
  · constructor
    · rintro ⟨hb, -⟩
      by_contra hc
      exact h (cfal_black_only_if_cond now st s hc hb)
    · intro hc
      exact cfal_blackcond_confirms now st s hc
  · norm_num [ms_to_ns_rat, DREAD_MAX_DELTA_MS, ONE_DREAD_FRAME_MS, ONE_SECOND]

/-- State refuting C4 as written: deep in full black with a potential
elevator category still set. -/
def c4State : ZDState :=
  { baseState with in_black_screen := true, potential_load_type := Cat.elevator }

/-- State for the C4 witness: deep in full black, nothing else pending. -/
def c4WitnessState : ZDState := { baseState with in_black_screen := true }

/-- Counterexample to C4 as stated: at this state a potential category
(elevator) is set, yet the black load is confirmed anyway, because the
source checks active_load_type only, never potential_load_type. -/
theorem c4_counterexample :
    c4State.potential_load_type ≠ Cat.none ∧
    (check_for_active_loads 100000001 testSettings c4State).active_load_type = Cat.black := by
  refine ⟨by decide, (cfal_blackcond_confirms 100000001 testSettings c4State ?_).1⟩
  refine ⟨rfl, rfl, by decide, by decide, ?_⟩
  norm_num [c4State, baseState, ms_to_ns_rat, DREAD_MAX_DELTA_MS, ONE_DREAD_FRAME_MS,
    ONE_SECOND]

/-- Witness for C4 at a concrete state satisfying the amended condition. -/
theorem c4_witness :
    black_confirm_cond 100000001 c4WitnessState ∧
    (check_for_active_loads 100000001 testSettings c4WitnessState).active_load_type =
      Cat.black := by
  have hc : black_confirm_cond 100000001 c4WitnessState := by
    refine ⟨rfl, rfl, by decide, by decide, ?_⟩
    norm_num [c4WitnessState, baseState, ms_to_ns_rat, DREAD_MAX_DELTA_MS,
      ONE_DREAD_FRAME_MS, ONE_SECOND]
  exact ⟨hc,
    ((c4_black_load_confirmation 100000001 testSettings c4WitnessState (by decide)).1.mpr hc).1⟩

/-- C2 (amended): whenever check_load_confidence confirms a category — any
of the five — the confidence delta is confirmedDetectedAt minus the
slice-black entry timestamp; the full-black variant is only the non-default
branch of the use_slice_black parameter, which every call site leaves at
its default True. -/
theorem c2_confidence_delta_uses_slice (now : Int) (st : Settings) (load_type : Cat)
    (similarity threshold : ℚ) (s : ZDState)
    (h : (check_load_confidence now st load_type similarity threshold true s).1 = true) :
    (check_load_confidence now st load_type similarity threshold true
        s).2.load_confidence_delta = now - s.slice_black_detected_at_timestamp ∧
    (check_load_confidence now st load_type similarity threshold true
        s).2.confirmed_load_detected_at_timestamp = now := by
  unfold check_load_confidence at h ⊢
  dsimp only at h ⊢
  split_ifs at h ⊢ <;> simp_all

/-- Base state for the C2 counterexample: distinct slice-black and
full-black entry timestamps, and a long-standing potential stamp so that
the confidence window has already elapsed. -/
def c2Base : ZDState :=
  { baseState with
    slice_black_detected_at_timestamp := 10
    full_black_detected_at_timestamp := 999999
    potential_load_detected_at_timestamp := 1 }

/-- Counterexample to C2 as stated: with distinct slice-black and
full-black timestamps, every one of the five categories computes its
confidence delta from the slice-black timestamp; no category uses the
full-black timestamp, so no category-dependent choice between the two
takes place. -/
theorem c2_counterexample :
    (check_for_active_loads 10000000 testSettings
      { c2Base with similarity_to_elevator := 95 }).load_confidence_delta = 10000000 - 10 ∧
    (check_for_active_loads 10000000 testSettings
      { c2Base with similarity_to_tram := 95 }).load_confidence_delta = 10000000 - 10 ∧
    (check_for_active_loads 10000000 testSettings
      { c2Base with similarity_to_teleportal := 95 }).load_confidence_delta = 10000000 - 10 ∧
    (check_for_active_loads 10000000 testSettings
      { c2Base with similarity_to_egg := 95 }).load_confidence_delta = 10000000 - 10 ∧
    (check_for_active_loads 10000000 testSettings
      { c2Base with similarity_to_loading_widget := 95 }).load_confidence_delta =
        10000000 - 10 ∧
    c2Base.slice_black_detected_at_timestamp ≠ c2Base.full_black_detected_at_timestamp ∧
    (10000000 - 10 : Int) ≠ 10000000 - 999999 := by
  refine ⟨by decide, by decide, by decide, by decide, by decide, by decide, by decide⟩

/-- Concrete state for the C2 witness. -/
def c2WState : ZDState := { baseState with slice_black_detected_at_timestamp := 42 }

/-- Witness for C2 (amended) at a concrete spinner confirmation. -/
theorem c2_witness :
    (check_load_confidence 1000 testSettings Cat.spinner 95 10 true c2WState).1 = true ∧
    (check_load_confidence 1000 testSettings Cat.spinner 95 10 true
      c2WState).2.load_confidence_delta = 1000 - c2WState.slice_black_detected_at_timestamp := by
  have h : (check_load_confidence 1000 testSettings Cat.spinner 95 10 true c2WState).1 = true := by
    decide
  exact ⟨h, (c2_confidence_delta_uses_slice 1000 testSettings Cat.spinner 95 10 c2WState h).1⟩

/-- Tick driver for the debounce scenario: each tick stores the elevator
similarity computed for that frame and runs check_for_active_loads at the
tick's timestamp, exactly as the tick loop does for a frame whose only
above-zero signal is the elevator similarity. -/
def runSimTicks (st : Settings) : List (Int × ℚ) → ZDState → ZDState
  | [], s => s
  | (t, sim) :: rest, s =>
      runSimTicks st rest (check_for_active_loads t st { s with similarity_to_elevator := sim })

/-- The spec's flicker scenario: similarity sequence 50, 96, 40, 96, 96, 96
against threshold 90, one tick per millisecond, with the 3 ms confidence
window of testSettings spanning 3 ticks. -/
def elevatorScenario : List (Int × ℚ) :=
  [(0, 50), (1000000, 96), (2000000, 40), (3000000, 96), (4000000, 96), (5000000, 96)]

/-- Counterexample to C3 as stated: in the spec's own scenario the code
confirms the elevator load at tick index 5 (timestamp 5000000 ns), even
though the fresh threshold crossing is at index 3 (timestamp 3000000 ns)
and only 2 ms ≤ 3 ms of continuous above-threshold time have elapsed: the
index-2 drop clears potential_load_type but leaves
potential_load_detected_at_timestamp at the index-1 flicker crossing, so
the debounce never restarts from the fresh crossing. -/
theorem c3_counterexample :
    (runSimTicks testSettings elevatorScenario baseState).active_load_type = Cat.elevator ∧
    (runSimTicks testSettings elevatorScenario
      baseState).confirmed_load_detected_at_timestamp = 5000000 ∧
    (runSimTicks testSettings (elevatorScenario.take 5) baseState).active_load_type =
      Cat.none ∧
    (runSimTicks testSettings (elevatorScenario.take 2)
      baseState).potential_load_detected_at_timestamp = 1000000 ∧
    (runSimTicks testSettings (elevatorScenario.take 3) baseState).potential_load_type =
      Cat.none ∧
    (runSimTicks testSettings (elevatorScenario.take 3)
      baseState).potential_load_detected_at_timestamp = 1000000 ∧
    (5000000 - 3000000 : Int) ≤ ms_to_ns testSettings.load_confidence_threshold_ms := by
  refine ⟨by decide, by decide, by decide, by decide, by decide, by decide, by decide⟩

/-- C3 (amended): when similarity drops below threshold while the category
is the potential one, only potential_load_type is cleared — the potential
timestamp survives, so the confidence window keeps counting from the
original crossing: any later above-threshold tick confirms as soon as the
time since that original stamp exceeds the window, and never before.  The
spinner category confirms on its first threshold crossing with no
debounce. -/
theorem c3_debounce_behaviour :
    (∀ (now : Int) (st : Settings) (load_type : Cat) (similarity threshold : ℚ)
        (usb : Bool) (s : ZDState),
      similarity ≤ threshold → s.active_load_type = Cat.none →
      s.potential_load_type = load_type →
      check_load_confidence now st load_type similarity threshold usb s =
        (false, { s with potential_load_type := Cat.none })) ∧
    (∀ (now : Int) (st : Settings) (similarity threshold : ℚ) (usb : Bool) (s : ZDState),
      similarity > threshold → s.active_load_type = Cat.none →
      (check_load_confidence now st Cat.spinner similarity threshold usb s).1 = true) ∧
    (∀ (now : Int) (st : Settings) (load_type : Cat) (similarity threshold : ℚ)
        (usb : Bool) (s : ZDState),
      load_type ≠ Cat.spinner → similarity > threshold → s.active_load_type = Cat.none →
      s.potential_load_detected_at_timestamp ≠ 0 →
      now - s.potential_load_detected_at_timestamp ≤ ms_to_ns st.load_confidence_threshold_ms →
      (check_load_confidence now st load_type similarity threshold usb s).1 = false) ∧
    (∀ (now : Int) (st : Settings) (load_type : Cat) (similarity threshold : ℚ)
        (usb : Bool) (s : ZDState),
      similarity > threshold → s.active_load_type = Cat.none →
      s.potential_load_detected_at_timestamp ≠ 0 →
      now - s.potential_load_detected_at_timestamp > ms_to_ns st.load_confidence_threshold_ms →
      (check_load_confidence now st load_type similarity threshold usb s).1 = true) := by
  refine ⟨?_, ?_, ?_, ?_⟩
  · intro now st load_type similarity threshold usb s hle hact hpot
    unfold check_load_confidence
    rw [if_neg (fun hc => absurd hc.1 (not_lt.mpr hle)), if_pos ⟨hle, hact, hpot⟩]
  · intro now st similarity threshold usb s hgt hact
    unfold check_load_confidence
    rw [if_pos ⟨hgt, hact⟩]
    dsimp only
    rw [if_pos (Or.inr rfl)]
  · intro now st load_type similarity threshold usb s hsp hgt hact hts hwin
    unfold check_load_confidence
    rw [if_pos ⟨hgt, hact⟩]
    dsimp only
    rw [if_neg hts, if_neg (by rintro (hw | hw); exacts [absurd hw (not_lt.mpr hwin), hsp hw])]
  · intro now st load_type similarity threshold usb s hgt hact hts hwin
    unfold check_load_confidence
    rw [if_pos ⟨hgt, hact⟩]
    dsimp only
    rw [if_neg hts, if_pos (Or.inl hwin)]

/-- Concrete state for the C3 witness: a pending potential elevator with a
stamped potential timestamp. -/
def c3DropState : ZDState :=
  { baseState with potential_load_type := Cat.elevator,
                   potential_load_detected_at_timestamp := 7 }

/-- Witness for C3 (amended) at concrete inputs: the drop branch clears
only the potential category, and the spinner confirms immediately. -/
theorem c3_witness :
    check_load_confidence 9 testSettings Cat.elevator 40 90 true c3DropState =
      (false, { c3DropState with potential_load_type := Cat.none }) ∧
    (check_load_confidence 9 testSettings Cat.spinner 95 10 true baseState).1 = true :=
  ⟨c3_debounce_behaviour.1 9 testSettings Cat.elevator 40 90 true c3DropState
      (by decide) rfl rfl,
    c3_debounce_behaviour.2.1 9 testSettings 95 10 true baseState (by decide) rfl⟩

/-- C1: when an active load ends — the relevant black-exit timestamp is
later than the confirmation timestamp, the load is being removed, detection
is not blocked, and now minus the black exit exceeds the confidence delta —
the credited duration is confidenceDelta plus (black exit minus
confirmation), that amount is added to the running total, exactly one
Removed record is appended to the session, all per-load transient state is
reset, and with monotonic timestamps (a non-negative confidence delta) the
credited duration is non-negative. -/
theorem c1_load_end_crediting (now : Int) (st : Settings) (recordTime : Int)
    (s : ZDState) (loads : List LoadRecord)
    (hsession : s.load_removal_session = Option.some loads)
    (hover : blackOverTs s > s.confirmed_load_detected_at_timestamp)
    (hrem : s.is_load_being_removed = true)
    (hblock : s.should_block_load_detection = false)
    (hnow : now - blackOverTs s > s.load_confidence_delta)
    (hdelta : 0 ≤ s.load_confidence_delta) :
    (check_if_load_ending now st recordTime s).single_load_time_removed_ms =
      credited_duration s ∧
    (check_if_load_ending now st recordTime s).load_time_removed_ms =
      s.load_time_removed_ms + credited_duration s ∧
    (check_if_load_ending now st recordTime s).load_removal_session =
      Option.some (loads ++
        [LoadRecord.removed s.active_load_type (credited_duration s) recordTime]) ∧
    (check_if_load_ending now st recordTime s).active_load_type = Cat.none ∧
    (check_if_load_ending now st recordTime s).potential_load_type = Cat.none ∧
    (check_if_load_ending now st recordTime s).potential_load_detected_at_timestamp = 0 ∧
    (check_if_load_ending now st recordTime s).confirmed_load_detected_at_timestamp = 0 ∧
    (check_if_load_ending now st recordTime s).load_confidence_delta = 0 ∧
    (check_if_load_ending now st recordTime s).is_load_being_removed = false ∧
    0 ≤ credited_duration s := by
  have hcred : 0 ≤ credited_duration s := by
    unfold credited_duration ns_to_ms
    apply div_nonneg
    · exact_mod_cast add_nonneg hdelta (by omega)
    · norm_num
  unfold check_if_load_ending
  rw [hsession]
  dsimp only
  rw [if_pos ⟨hover, hrem, by simp [hblock]⟩]
  split_ifs <;> exact ⟨rfl, rfl, rfl, rfl, rfl, rfl, rfl, rfl, rfl, hcred⟩

/-- Concrete state for the C1 witness: a confirmed elevator load whose
full-black exit has happened after confirmation. -/
def c1State : ZDState :=
  { baseState with
    active_load_type := Cat.elevator
    is_load_being_removed := true
    full_black_over_detected_at_timestamp := 100
    confirmed_load_detected_at_timestamp := 50
    load_confidence_delta := 10 }

/-- Witness for C1 at a concrete load end. -/
theorem c1_witness :
    (check_if_load_ending 200 testSettings 999 c1State).active_load_type = Cat.none ∧
    (check_if_load_ending 200 testSettings 999 c1State).load_removal_session =
      Option.some ([] ++ [LoadRecord.removed c1State.active_load_type
        (credited_duration c1State) 999]) ∧
    (check_if_load_ending 200 testSettings 999 c1State).load_time_removed_ms =
      c1State.load_time_removed_ms + credited_duration c1State ∧
    0 ≤ credited_duration c1State := by
  have h := c1_load_end_crediting 200 testSettings 999 c1State [] rfl (by decide) rfl rfl
    (by decide) (by decide)
  exact ⟨h.2.2.2.1, h.2.2.1, h.2.1, h.2.2.2.2.2.2.2.2.2⟩

/-- C6: when the capture stream is lost while a confirmed load is being
removed, mark_load_as_lost appends exactly one Lost record — carrying the
active category and reporting zero duration — appends no Removed record,
adds nothing to the running total, and resets the per-load transient
state. -/
theorem c6_stream_loss_lost_record (lostAt : Int) (s : ZDState) (loads : List LoadRecord)
    (hsession : s.load_removal_session = Option.some loads)
    (hrem : s.is_load_being_removed = true) :
    (mark_load_as_lost lostAt s).load_removal_session =
      Option.some (loads ++ [LoadRecord.lost s.active_load_type lostAt]) ∧
    countLost (loads ++ [LoadRecord.lost s.active_load_type lostAt]) = countLost loads + 1 ∧
    countRemoved (loads ++ [LoadRecord.lost s.active_load_type lostAt]) = countRemoved loads ∧
    loadTimeRemovedOf (LoadRecord.lost s.active_load_type lostAt) = 0 ∧
    (mark_load_as_lost lostAt s).load_time_removed_ms = s.load_time_removed_ms ∧
    (mark_load_as_lost lostAt s).active_load_type = Cat.none ∧
    (mark_load_as_lost lostAt s).potential_load_type = Cat.none ∧
    (mark_load_as_lost lostAt s).is_load_being_removed = false ∧
    (mark_load_as_lost lostAt s).load_confidence_delta = 0 := by
  unfold mark_load_as_lost
  rw [hsession]
  dsimp only
  rw [if_pos hrem]
  refine ⟨rfl, ?_, ?_, rfl, rfl, rfl, rfl, rfl, rfl⟩
  · simp [countLost, isLostRecord]
  · simp [countRemoved, isRemovedRecord]

/-- Concrete state for the C6 witness: a confirmed tram load being
removed when the stream dies. -/
def c6State : ZDState :=
  { baseState with active_load_type := Cat.tram, is_load_being_removed := true }

/-- Witness for C6 at a concrete stream loss. -/
theorem c6_witness :
    (mark_load_as_lost 77 c6State).load_removal_session =
      Option.some ([] ++ [LoadRecord.lost c6State.active_load_type 77]) ∧
    (mark_load_as_lost 77 c6State).is_load_being_removed = false :=
  ⟨(c6_stream_loss_lost_record 77 c6State [] rfl rfl).1,
    (c6_stream_loss_lost_record 77 c6State [] rfl rfl).2.2.2.2.2.2.2.1⟩

/-! Frame lemmas: the detection logic never writes any per-session
similarity maximum. -/

theorem clc_maxes (now : Int) (st : Settings) (load_type : Cat)
    (similarity threshold : ℚ) (usb : Bool) (s : ZDState) :
    (check_load_confidence now st load_type similarity threshold usb
        s).2.similarity_to_elevator_max = s.similarity_to_elevator_max ∧
    (check_load_confidence now st load_type similarity threshold usb
        s).2.similarity_to_tram_max = s.similarity_to_tram_max ∧
    (check_load_confidence now st load_type similarity threshold usb
        s).2.similarity_to_teleportal_max = s.similarity_to_teleportal_max ∧
    (check_load_confidence now st load_type similarity threshold usb
        s).2.similarity_to_egg_max = s.similarity_to_egg_max ∧
    (check_load_confidence now st load_type similarity threshold usb
        s).2.similarity_to_end_screen_max = s.similarity_to_end_screen_max ∧
    (check_load_confidence now st load_type similarity threshold usb
        s).2.similarity_to_loading_widget_max = s.similarity_to_loading_widget_max ∧
    (check_load_confidence now st load_type similarity threshold usb
        s).2.similarity_to_game_over_screen_max = s.similarity_to_game_over_screen_max := by
  unfold check_load_confidence
  dsimp only
  split_ifs <;> exact ⟨rfl, rfl, rfl, rfl, rfl, rfl, rfl⟩

theorem confidence_step_maxes (now : Int) (st : Settings) (load_type : Cat)
    (similarity threshold : ℚ) (s : ZDState) :
    (confidence_step now st load_type similarity threshold s).similarity_to_elevator_max =
      s.similarity_to_elevator_max ∧
    (confidence_step now st load_type similarity threshold s).similarity_to_tram_max =
      s.similarity_to_tram_max ∧
    (confidence_step now st load_type similarity threshold s).similarity_to_teleportal_max =
      s.similarity_to_teleportal_max ∧
    (confidence_step now st load_type similarity threshold s).similarity_to_egg_max =
      s.similarity_to_egg_max ∧
    (confidence_step now st load_type similarity threshold s).similarity_to_end_screen_max =
      s.similarity_to_end_screen_max ∧
    (confidence_step now st load_type similarity threshold
        s).similarity_to_loading_widget_max = s.similarity_to_loading_widget_max ∧
    (confidence_step now st load_type similarity threshold
        s).similarity_to_game_over_screen_max = s.similarity_to_game_over_screen_max := by
  unfold confidence_step
  dsimp only
  split_ifs <;> exact clc_maxes now st load_type similarity threshold true s

theorem cooldown_maxes (now : Int) (st : Settings) (s : ZDState) :
    (check_load_cooldown now st s).similarity_to_elevator_max =
      s.similarity_to_elevator_max ∧
    (check_load_cooldown now st s).similarity_to_tram_max = s.similarity_to_tram_max ∧
    (check_load_cooldown now st s).similarity_to_teleportal_max =
      s.similarity_to_teleportal_max ∧
    (check_load_cooldown now st s).similarity_to_egg_max = s.similarity_to_egg_max ∧
    (check_load_cooldown now st s).similarity_to_end_screen_max =
      s.similarity_to_end_screen_max ∧
    (check_load_cooldown now st s).similarity_to_loading_widget_max =
      s.similarity_to_loading_widget_max ∧
    (check_load_cooldown now st s).similarity_to_game_over_screen_max =
      s.similarity_to_game_over_screen_max := by
  unfold check_load_cooldown
  split_ifs <;> exact ⟨rfl, rfl, rfl, rfl, rfl, rfl, rfl⟩

theorem markers_maxes (now : Int) (st : Settings) (s : ZDState) :
    (check_black_screen_markers now st s).similarity_to_elevator_max =
      s.similarity_to_elevator_max ∧
    (check_black_screen_markers now st s).similarity_to_tram_max =
      s.similarity_to_tram_max ∧
    (check_black_screen_markers now st s).similarity_to_teleportal_max =
      s.similarity_to_teleportal_max ∧
    (check_black_screen_markers now st s).similarity_to_egg_max =
      s.similarity_to_egg_max ∧
    (check_black_screen_markers now st s).similarity_to_end_screen_max =
      s.similarity_to_end_screen_max ∧
    (check_black_screen_markers now st s).similarity_to_loading_widget_max =
      s.similarity_to_loading_widget_max ∧
    (check_black_screen_markers now st s).similarity_to_game_over_screen_max =
      s.similarity_to_game_over_screen_max := by
  unfold check_black_screen_markers
  dsimp only
  split_ifs <;> exact ⟨rfl, rfl, rfl, rfl, rfl, rfl, rfl⟩

theorem blocking_maxes (s : ZDState) :
    (check_load_blocking_logic s).similarity_to_elevator_max =
      s.similarity_to_elevator_max ∧
    (check_load_blocking_logic s).similarity_to_tram_max = s.similarity_to_tram_max ∧
    (check_load_blocking_logic s).similarity_to_teleportal_max =
      s.similarity_to_teleportal_max ∧
    (check_load_blocking_logic s).similarity_to_egg_max = s.similarity_to_egg_max ∧
    (check_load_blocking_logic s).similarity_to_end_screen_max =
      s.similarity_to_end_screen_max ∧
    (check_load_blocking_logic s).similarity_to_loading_widget_max =
      s.similarity_to_loading_widget_max ∧
    (check_load_blocking_logic s).similarity_to_game_over_screen_max =
      s.similarity_to_game_over_screen_max := by
  unfold check_load_blocking_logic
  split_ifs <;> exact ⟨rfl, rfl, rfl, rfl, rfl, rfl, rfl⟩

theorem cfal_maxes (now : Int) (st : Settings) (s : ZDState) :
    (check_for_active_loads now st s).similarity_to_elevator_max =
      s.similarity_to_elevator_max ∧
    (check_for_active_loads now st s).similarity_to_tram_max = s.similarity_to_tram_max ∧
    (check_for_active_loads now st s).similarity_to_teleportal_max =
      s.similarity_to_teleportal_max ∧
    (check_for_active_loads now st s).similarity_to_egg_max = s.similarity_to_egg_max ∧
    (check_for_active_loads now st s).similarity_to_end_screen_max =
      s.similarity_to_end_screen_max ∧
    (check_for_active_loads now st s).similarity_to_loading_widget_max =
      s.similarity_to_loading_widget_max ∧
    (check_for_active_loads now st s).similarity_to_game_over_screen_max =
      s.similarity_to_game_over_screen_max := by
  unfold check_for_active_loads
  dsimp only
  split_ifs <;> simp [confidence_step_maxes]

theorem etl_maxes (d : Bool) (s : ZDState) :
    (end_tracking_load d s).similarity_to_elevator_max = s.similarity_to_elevator_max ∧
    (end_tracking_load d s).similarity_to_tram_max = s.similarity_to_tram_max ∧
    (end_tracking_load d s).similarity_to_teleportal_max =
      s.similarity_to_teleportal_max ∧
    (end_tracking_load d s).similarity_to_egg_max = s.similarity_to_egg_max ∧
    (end_tracking_load d s).similarity_to_end_screen_max =
      s.similarity_to_end_screen_max ∧
    (end_tracking_load d s).similarity_to_loading_widget_max =
      s.similarity_to_loading_widget_max ∧
    (end_tracking_load d s).similarity_to_game_over_screen_max =
      s.similarity_to_game_over_screen_max := by
  unfold end_tracking_load
  dsimp only
  split_ifs <;> exact ⟨rfl, rfl, rfl, rfl, rfl, rfl, rfl⟩

theorem ending_maxes (now : Int) (st : Settings) (recordTime : Int) (s : ZDState) :
    (check_if_load_ending now st recordTime s).similarity_to_elevator_max =
      s.similarity_to_elevator_max ∧
    (check_if_load_ending now st recordTime s).similarity_to_tram_max =
      s.similarity_to_tram_max ∧
    (check_if_load_ending now st recordTime s).similarity_to_teleportal_max =
      s.similarity_to_teleportal_max ∧
    (check_if_load_ending now st recordTime s).similarity_to_egg_max =
      s.similarity_to_egg_max ∧
    (check_if_load_ending now st recordTime s).similarity_to_end_screen_max =
      s.similarity_to_end_screen_max ∧
    (check_if_load_ending now st recordTime s).similarity_to_loading_widget_max =
      s.similarity_to_loading_widget_max ∧
    (check_if_load_ending now st recordTime s).similarity_to_game_over_screen_max =
      s.similarity_to_game_over_screen_max := by
  unfold check_if_load_ending
  rcases hs : s.load_removal_session with _ | loads
  · exact ⟨rfl, rfl, rfl, rfl, rfl, rfl, rfl⟩
  · dsimp only
    split_ifs <;> simp [etl_maxes]

/-- Running-maximum characterisation of the per-category extremes, generic
in the category accessors. -/
theorem observeAll_max_generic (getSig : SimilaritySignals → ℚ) (getMax : ZDState → ℚ)
    (hstep : ∀ (g : SimilaritySignals) (s : ZDState),
      getMax (observe g s) = max (getSig g) (getMax s)) :
    ∀ (sigs : List SimilaritySignals) (s : ZDState),
      getMax (observeAll sigs s) = (sigs.map getSig).foldl max (getMax s) := by
  intro sigs
  induction sigs with
  | nil => intro s; rfl
  | cons g rest ih =>
    intro s
    simp only [observeAll, List.map_cons, List.foldl_cons]
    rw [ih, hstep, max_comm]

/-- C7 (amended): every per-category session maximum is non-decreasing
observation over observation, and after a reset it equals the running
maximum of all similarity values observed since.  On any tick whose
end-screen stop verdict is false the load-removal logic leaves every
maximum unchanged; but on a tick where the end-screen short-circuit fires
while tracking, perform_load_removal_logic calls end_tracking, whose
reset_tracking_variables resets every similarity maximum to zero — so the
maxima are reset by explicit user action, a new session, or the detection
logic's own end-screen stop. -/
theorem c7_monotonic_session_maxima :
    (∀ (g : SimilaritySignals) (s : ZDState),
      s.similarity_to_elevator_max ≤ (observe g s).similarity_to_elevator_max ∧
      s.similarity_to_tram_max ≤ (observe g s).similarity_to_tram_max ∧
      s.similarity_to_teleportal_max ≤ (observe g s).similarity_to_teleportal_max ∧
      s.similarity_to_egg_max ≤ (observe g s).similarity_to_egg_max ∧
      s.similarity_to_end_screen_max ≤ (observe g s).similarity_to_end_screen_max ∧
      s.similarity_to_loading_widget_max ≤ (observe g s).similarity_to_loading_widget_max ∧
      s.similarity_to_game_over_screen_max ≤
        (observe g s).similarity_to_game_over_screen_max) ∧
    (∀ (sigs : List SimilaritySignals) (s : ZDState),
      (observeAll sigs (reset_similarity_variables s)).similarity_to_elevator_max =
        (sigs.map fun g => g.elevator).foldl max 0 ∧
      (observeAll sigs (reset_similarity_variables s)).similarity_to_tram_max =
        (sigs.map fun g => g.tram).foldl max 0 ∧
      (observeAll sigs (reset_similarity_variables s)).similarity_to_teleportal_max =
        (sigs.map fun g => g.teleportal).foldl max 0 ∧
      (observeAll sigs (reset_similarity_variables s)).similarity_to_egg_max =
        (sigs.map fun g => g.egg).foldl max 0 ∧
      (observeAll sigs (reset_similarity_variables s)).similarity_to_end_screen_max =
        (sigs.map fun g => g.end_screen).foldl max 0 ∧
      (observeAll sigs (reset_similarity_variables s)).similarity_to_loading_widget_max =
        (sigs.map fun g => g.loading_widget).foldl max 0 ∧
      (observeAll sigs (reset_similarity_variables s)).similarity_to_game_over_screen_max =
        (sigs.map fun g => g.game_over).foldl max 0) ∧
    (∀ (now : Int) (st : Settings) (recordTime : Int) (s : ZDState),
      (perform_load_removal_logic now st recordTime s).2 = false →
      ((perform_load_removal_logic now st recordTime s).1.similarity_to_elevator_max =
        s.similarity_to_elevator_max ∧
      (perform_load_removal_logic now st recordTime s).1.similarity_to_tram_max =
        s.similarity_to_tram_max ∧
      (perform_load_removal_logic now st recordTime s).1.similarity_to_teleportal_max =
        s.similarity_to_teleportal_max ∧
      (perform_load_removal_logic now st recordTime s).1.similarity_to_egg_max =
        s.similarity_to_egg_max ∧
      (perform_load_removal_logic now st recordTime s).1.similarity_to_end_screen_max =
        s.similarity_to_end_screen_max ∧
      (perform_load_removal_logic now st recordTime s).1.similarity_to_loading_widget_max =
        s.similarity_to_loading_widget_max ∧
      (perform_load_removal_logic now st recordTime
          s).1.similarity_to_game_over_screen_max =
        s.similarity_to_game_over_screen_max)) ∧
    (∀ (now : Int) (st : Settings) (recordTime : Int) (s : ZDState),
      (perform_load_removal_logic now st recordTime s).2 = true →
      s.is_tracking = true →
      ((perform_load_removal_logic now st recordTime s).1.similarity_to_elevator_max = 0 ∧
      (perform_load_removal_logic now st recordTime s).1.similarity_to_tram_max = 0 ∧
      (perform_load_removal_logic now st recordTime s).1.similarity_to_teleportal_max = 0 ∧
      (perform_load_removal_logic now st recordTime s).1.similarity_to_egg_max = 0 ∧
      (perform_load_removal_logic now st recordTime s).1.similarity_to_end_screen_max = 0 ∧
      (perform_load_removal_logic now st recordTime
          s).1.similarity_to_loading_widget_max = 0 ∧
      (perform_load_removal_logic now st recordTime
          s).1.similarity_to_game_over_screen_max = 0)) := by
  refine ⟨?_, ?_, ?_, ?_⟩
  · intro g s
    exact ⟨le_max_right _ _, le_max_right _ _, le_max_right _ _, le_max_right _ _,
      le_max_right _ _, le_max_right _ _, le_max_right _ _⟩
  · intro sigs s
    exact ⟨observeAll_max_generic (fun g => g.elevator)
        (fun t => t.similarity_to_elevator_max) (fun g t => rfl) sigs _,
      observeAll_max_generic (fun g => g.tram)
        (fun t => t.similarity_to_tram_max) (fun g t => rfl) sigs _,
      observeAll_max_generic (fun g => g.teleportal)
        (fun t => t.similarity_to_teleportal_max) (fun g t => rfl) sigs _,
      observeAll_max_generic (fun g => g.egg)
        (fun t => t.similarity_to_egg_max) (fun g t => rfl) sigs _,
      observeAll_max_generic (fun g => g.end_screen)
        (fun t => t.similarity_to_end_screen_max) (fun g t => rfl) sigs _,
      observeAll_max_generic (fun g => g.loading_widget)
        (fun t => t.similarity_to_loading_widget_max) (fun g t => rfl) sigs _,
      observeAll_max_generic (fun g => g.game_over)
        (fun t => t.similarity_to_game_over_screen_max) (fun g t => rfl) sigs _⟩
  · intro now st recordTime s hstop
    have h' : is_end_screen s s.similarity_to_end_screen 98 = false := hstop
    unfold perform_load_removal_logic
    dsimp only
    rw [h', if_neg Bool.false_ne_true]
    split_ifs <;>
      simp [ending_maxes, cfal_maxes, blocking_maxes, markers_maxes, cooldown_maxes]
  · intro now st recordTime s hstop htrack
    have h' : is_end_screen s s.similarity_to_end_screen 98 = true := hstop
    unfold perform_load_removal_logic end_tracking
    dsimp only
    simp only [h', eq_self_iff_true, if_true]
    rw [if_pos htrack]
    rw [if_pos (Or.inl (by simp))]
    exact ⟨rfl, rfl, rfl, rfl, rfl, rfl, rfl⟩

/-- State refuting C7 as written: tracking with the end-screen similarity
above the hard stop threshold and one non-zero session maximum. -/
def c7State : ZDState :=
  { baseState with similarity_to_end_screen := 99, similarity_to_elevator_max := 55 }

/-- Counterexample to C7 as stated: on an end-screen tick the detection
logic itself resets the session maxima — perform_load_removal_logic calls
end_tracking, whose reset_tracking_variables zeroes them, here dropping the
recorded elevator maximum 55 to 0. -/
theorem c7_counterexample :
    c7State.similarity_to_elevator_max = 55 ∧
    c7State.is_tracking = true ∧
    (perform_load_removal_logic 0 testSettings 0 c7State).1.similarity_to_elevator_max =
      0 := by
  refine ⟨rfl, rfl, ?_⟩
  decide

/-- Witness for C7 (amended): on a quiet tick the maxima survive; on a
concrete end-screen tick they are zeroed. -/
theorem c7_witness :
    (perform_load_removal_logic 0 testSettings 0 baseState).1.similarity_to_elevator_max =
      baseState.similarity_to_elevator_max ∧
    (perform_load_removal_logic 0 testSettings 0 c7State).1.similarity_to_tram_max = 0 :=
  ⟨(c7_monotonic_session_maxima.2.2.1 0 testSettings 0 baseState (by decide)).1,
    (c7_monotonic_session_maxima.2.2.2 0 testSettings 0 c7State (by decide) rfl).2.1⟩

/-- C8: looking up a comparison algorithm by any name outside the closed
set histogram, l2norm, phash, orb_bf, orb_flann returns the no-op
comparator, which yields 0 on every pair of inputs, while an unknown
capture-view name and an unknown export format both raise KeyError instead
of silently defaulting. -/
theorem c8_error_taxonomy {α : Type} (impls : ComparisonImpls α) (views : CaptureViews α)
    (aname vname fname : String)
    (ha : aname ∉ ["histogram", "l2norm", "phash", "orb_bf", "orb_flann"])
    (hv : vname ∉ ["standard_resized", "normalized_resized", "cropped_resized", "raw"])
    (hf : fname ∉ ["json", "excel", "csv"]) :
    (∀ a b : α, get_comparison_method_by_name impls aname a b = 0) ∧
    get_capture_view_by_name views vname =
      Except.error "KeyError: not a valid capture view" ∧
    export_loads_format fname = Except.error "KeyError: not a valid export format" := by
  have ha' : aname ≠ "histogram" ∧ aname ≠ "l2norm" ∧ aname ≠ "phash" ∧
      aname ≠ "orb_bf" ∧ aname ≠ "orb_flann" := by simpa using ha
  have hv' : vname ≠ "standard_resized" ∧ vname ≠ "normalized_resized" ∧
      vname ≠ "cropped_resized" ∧ vname ≠ "raw" := by simpa using hv
  have hf' : fname ≠ "json" ∧ fname ≠ "excel" ∧ fname ≠ "csv" := by simpa using hf
  refine ⟨fun a b => ?_, ?_, ?_⟩
  · simp [get_comparison_method_by_name, compare_dummy,
      ha'.1, ha'.2.1, ha'.2.2.1, ha'.2.2.2.1, ha'.2.2.2.2]
  · simp [get_capture_view_by_name, hv'.1, hv'.2.1, hv'.2.2.1, hv'.2.2.2]
  · simp [export_loads_format, hf'.1, hf'.2.1, hf'.2.2]

/-- Trivial image universe and concrete collaborators for the C8 witness. -/
def unitImpls : ComparisonImpls Unit :=
  ⟨fun _ _ => 1, fun _ _ => 1, fun _ _ => 1, fun _ _ => 1, fun _ _ => 1⟩

def unitViews : CaptureViews Unit := ⟨(), (), (), (), fun _ => true⟩

/-- Witness for C8 at the concrete unknown name "bogus". -/
theorem c8_witness :
    get_comparison_method_by_name unitImpls "bogus" () () = 0 ∧
    get_capture_view_by_name unitViews "bogus" =
      Except.error "KeyError: not a valid capture view" ∧
    export_loads_format "bogus" = Except.error "KeyError: not a valid export format" := by
  have h := c8_error_taxonomy unitImpls unitViews "bogus" "bogus" "bogus"
    (by decide) (by decide) (by decide)
  exact ⟨h.1 () (), h.2.1, h.2.2⟩

/-- C9: delete_load evaluates load.loadRemovedAt on every record it scans,
but LostLoadEntry and DiscardedLoadEntry never define that attribute, so
deleting from any ledger whose scan reaches a lost or discarded record
raises AttributeError instead of completing; on a ledger of Removed records
alone it deletes exactly the record whose creation timestamp matches. -/
theorem c9_delete_load_attribute_error :
    delete_load [LoadRecord.lost Cat.elevator 5] 7 = Except.error "AttributeError" ∧
    delete_load [LoadRecord.discarded Cat.tram 6 "gameover"] 7 =
      Except.error "AttributeError" ∧
    delete_load [LoadRecord.removed Cat.elevator 10 5, LoadRecord.removed Cat.tram 11 7] 7 =
      Except.ok [LoadRecord.removed Cat.elevator 10 5] :=
  ⟨rfl, rfl, rfl⟩

end ZDCurtain
